import Mathlib

/-!
Shallow embedding of the SCTP OS-binding layer (src/sctp-rs/src/internal.rs)
on a little-endian POSIX platform (x86-64 Linux ABI), together with proofs
about the address codec, the notification decoder, the event-subscription
mapper and the kernel-call wrappers.

Byte buffers are modelled as List Nat (each element one byte), machine
integers as Nat or Int with explicit bounds where overflow matters.
Kernel calls are modelled by passing the kernel's results (return value,
errno, output buffers) as explicit parameters; Rust Result is Except,
a Rust panic is Option.none.
-/

/-- AF_INET, the IPv4 address family tag (Linux ABI). -/
def AF_INET : Nat := 2

/-- AF_INET6, the IPv6 address family tag (Linux ABI). -/
def AF_INET6 : Nat := 10

/-- size_of sockaddr_in: the fixed IPv4 record size in bytes (Linux ABI). -/
def sizeof_sockaddr_in : Nat := 16

/-- size_of sockaddr_in6: the fixed IPv6 record size in bytes (Linux ABI). -/
def sizeof_sockaddr_in6 : Nat := 28

/-- Read one byte of a buffer; out-of-range reads yield 0 (the embedding of a
raw in-bounds pointer read: every theorem below exercises it in bounds). -/
def byteAt (buf : List Nat) (i : Nat) : Nat := buf.getD i 0

/-- A 16-bit value read in native order (little-endian) at an offset. -/
def u16ne (buf : List Nat) (off : Nat) : Nat :=
  byteAt buf off + 256 * byteAt buf (off + 1)

/-- A 16-bit value read in big-endian (network) order at an offset, as
u16::from_be does for the sin_port / sin6_port field. -/
def u16be (buf : List Nat) (off : Nat) : Nat :=
  256 * byteAt buf off + byteAt buf (off + 1)

/-- A 32-bit value read in native order (little-endian) at an offset. -/
def u32ne (buf : List Nat) (off : Nat) : Nat :=
  byteAt buf off + 256 * byteAt buf (off + 1) +
    65536 * byteAt buf (off + 2) + 16777216 * byteAt buf (off + 3)

/-- i32::from_ne_bytes at an offset: the 32-bit value reinterpreted as a
signed two's-complement integer. -/
def i32ne (buf : List Nat) (off : Nat) : Int :=
  if u32ne buf off < 2 ^ 31 then (u32ne buf off : Int)
  else (u32ne buf off : Int) - 2 ^ 32

/-- The two bytes of a 16-bit value in native (little-endian) order. -/
def u16neBytes (n : Nat) : List Nat := [n % 256, n / 256 % 256]

/-- The two bytes of a 16-bit value in big-endian order (port.to_be). -/
def u16beBytes (n : Nat) : List Nat := [n / 256 % 256, n % 256]

/-- The four bytes of a 32-bit value in native (little-endian) order. -/
def u32neBytes (n : Nat) : List Nat :=
  [n % 256, n / 256 % 256, n / 65536 % 256, n / 16777216 % 256]

/-- std::net::SocketAddr: an IPv4 or IPv6 socket address.  The IPv4 payload
is the 4 address octets and the port; the IPv6 payload is the 16 address
octets, the port, the flow label and the scope id. -/
inductive SocketAddr where
  | v4 (ip : List Nat) (port : Nat)
  | v6 (ip : List Nat) (port : Nat) (flowinfo : Nat) (scope_id : Nat)
deriving DecidableEq, Repr

/-- The representation invariant of a SocketAddr value: the octet lists have
the length and byte range the Rust types carry, and the numeric fields fit
their machine-integer widths (u16 port, u32 flowinfo and scope id). -/
def ValidAddr : SocketAddr → Prop
  | .v4 ip port =>
      ip.length = 4 ∧ (∀ b ∈ ip, b < 256) ∧ port < 65536
  | .v6 ip port flowinfo scope_id =>
      ip.length = 16 ∧ (∀ b ∈ ip, b < 256) ∧ port < 65536 ∧
        flowinfo < 2 ^ 32 ∧ scope_id < 2 ^ 32

instance (a : SocketAddr) : Decidable (ValidAddr a) := by
  cases a <;> (simp only [ValidAddr]; infer_instance)

/-- OsSocketAddr conversion of one SocketAddr into its native per-family
record, as used by sctp_bindx_internal and sctp_connectx_internal:
sockaddr_in is family, big-endian port, 4 address octets, 8 bytes of zero
padding (16 bytes total); sockaddr_in6 is family, big-endian port, native
flow label, 16 address octets, native scope id (28 bytes total). -/
def encodeOne : SocketAddr → List Nat
  | .v4 ip port =>
      u16neBytes AF_INET ++ u16beBytes port ++ ip ++ List.replicate 8 0
  | .v6 ip port flowinfo scope_id =>
      u16neBytes AF_INET6 ++ u16beBytes port ++ u32neBytes flowinfo ++
        ip ++ u32neBytes scope_id

/-- The encoding loop shared by sctp_bindx_internal and
sctp_connectx_internal: the per-family records of all addresses,
concatenated in order into one buffer (addrs_u8). -/
def encodeAddrs (addrs : List SocketAddr) : List Nat :=
  (addrs.map encodeOne).flatten

/-- The error type of this layer: every failure the code surfaces is a
std::io::Error carrying an OS error code. -/
inductive SctpError where
  | osError (code : Int)
deriving DecidableEq, Repr

/-- The error value the address decoder returns on an unrecognized family
tag: std::io::Error::from_raw_os_error(22), the error the spec names
UnsupportedAddressFamily. -/
def unsupportedAddressFamily : SctpError := .osError 22

/-- One iteration of the address-decoding loop of sctp_getaddrs_internal:
read the 2-byte native-order family tag at the cursor; an IPv4 tag
consumes one fixed-size sockaddr_in record, an IPv6 tag one fixed-size
sockaddr_in6 record (each converted back through OsSocketAddr::into_addr);
any other tag fails with the UnsupportedAddressFamily error and consumes
zero bytes.  Returns the decode result and the number of bytes consumed. -/
def decode_one (buf : List Nat) : Except SctpError SocketAddr × Nat :=
  let sa_family := u16ne buf 0
  if sa_family = AF_INET then
    (.ok (.v4 ((buf.drop 4).take 4) (u16be buf 2)), sizeof_sockaddr_in)
  else if sa_family = AF_INET6 then
    (.ok (.v6 ((buf.drop 8).take 16) (u16be buf 2) (u32ne buf 4) (u32ne buf 24)),
      sizeof_sockaddr_in6)
  else
    (.error unsupportedAddressFamily, 0)

/-- The address-decoding loop of sctp_getaddrs_internal: decode exactly
count records, advancing the cursor by each record's consumed size, and
abort with the first failure. -/
def decode_list (buf : List Nat) : Nat → Except SctpError (List SocketAddr)
  | 0 => .ok []
  | n + 1 =>
    match decode_one buf with
    | (.error e, _) => .error e
    | (.ok a, consumed) =>
      match decode_list (buf.drop consumed) n with
      | .error e => .error e
      | .ok rest => .ok (a :: rest)

/-- The per-family record size that decode_one consumes for an address. -/
def sockaddrSize : SocketAddr → Nat
  | .v4 _ _ => sizeof_sockaddr_in
  | .v6 _ _ _ _ => sizeof_sockaddr_in6

lemma encodeOne_length (a : SocketAddr) (h : ValidAddr a) :
    (encodeOne a).length = sockaddrSize a := by
  cases a with
  | v4 ip port =>
    obtain ⟨hlen, -, -⟩ := h
    simp [encodeOne, sockaddrSize, u16neBytes, u16beBytes, hlen,
      sizeof_sockaddr_in]
  | v6 ip port flowinfo scope_id =>
    obtain ⟨hlen, -, -, -, -⟩ := h
    simp [encodeOne, sockaddrSize, u16neBytes, u16beBytes, u32neBytes, hlen,
      sizeof_sockaddr_in6]

lemma decode_one_encodeOne (a : SocketAddr) (rest : List Nat)
    (h : ValidAddr a) :
    decode_one (encodeOne a ++ rest) = (.ok a, sockaddrSize a) := by
  cases a with
  | v4 ip port =>
    obtain ⟨hlen, -, hport⟩ := h
    have hshape : encodeOne (.v4 ip port) ++ rest =
        2 :: 0 :: (port / 256 % 256) :: (port % 256) ::
          (ip ++ (List.replicate 8 0 ++ rest)) := by
      simp [encodeOne, u16neBytes, u16beBytes, AF_INET]
    rw [hshape]
    simp only [decode_one, u16ne, u16be, byteAt, sockaddrSize]
    norm_num [AF_INET]
    refine ⟨?_, ?_⟩
    · rw [← hlen, List.take_left]
    · omega
  | v6 ip port flowinfo scope_id =>
    obtain ⟨hlen, -, hport, hflow, hscope⟩ := h
    have hshape : encodeOne (.v6 ip port flowinfo scope_id) ++ rest =
        10 :: 0 :: (port / 256 % 256) :: (port % 256) ::
          (flowinfo % 256) :: (flowinfo / 256 % 256) ::
          (flowinfo / 65536 % 256) :: (flowinfo / 16777216 % 256) ::
          (ip ++ (u32neBytes scope_id ++ rest)) := by
      simp [encodeOne, u16neBytes, u16beBytes, u32neBytes, AF_INET6,
        List.append_assoc]
    rw [hshape]
    have htake : ((10 :: 0 :: (port / 256 % 256) :: (port % 256) ::
        (flowinfo % 256) :: (flowinfo / 256 % 256) ::
        (flowinfo / 65536 % 256) :: (flowinfo / 16777216 % 256) ::
        (ip ++ (u32neBytes scope_id ++ rest))).drop 8).take 16 = ip := by
      simp only [List.drop_succ_cons, List.drop_zero]
      rw [← hlen, List.take_left]
    have hscopeBytes : ∀ j : Nat, j < 4 →
        byteAt (ip ++ (u32neBytes scope_id ++ rest)) (16 + j) =
          byteAt (u32neBytes scope_id ++ rest) j := by
      intro j hj
      simp [byteAt, List.getElem?_append_right, hlen]
    simp only [decode_one, u16ne, u16be, u32ne, byteAt, sockaddrSize]
    norm_num [AF_INET, AF_INET6, htake]
    refine ⟨?_, ?_, ?_, ?_⟩
    · rw [← hlen, List.take_left]
    · omega
    · omega
    · have h0 := hscopeBytes 0 (by norm_num)
      have h1 := hscopeBytes 1 (by norm_num)
      have h2 := hscopeBytes 2 (by norm_num)
      have h3 := hscopeBytes 3 (by norm_num)
      simp only [byteAt] at h0 h1 h2 h3
      norm_num at h0 h1 h2 h3 ⊢
      rw [h0, h1, h2, h3]
      simp [u32neBytes]
      omega

lemma decode_list_encodeAddrs (l : List SocketAddr) (rest : List Nat)
    (h : ∀ a ∈ l, ValidAddr a) :
    decode_list (encodeAddrs l ++ rest) l.length = .ok l := by
  induction l generalizing rest with
  | nil => simp [decode_list]
  | cons a t ih =>
    have ha : ValidAddr a := h a (List.mem_cons_self a t)
    have ht : ∀ b ∈ t, ValidAddr b := fun b hb => h b (List.mem_cons_of_mem a hb)
    have hbuf : encodeAddrs (a :: t) ++ rest =
        encodeOne a ++ (encodeAddrs t ++ rest) := by
      simp [encodeAddrs]
    rw [hbuf]
    have hdec := decode_one_encodeOne a (encodeAddrs t ++ rest) ha
    have hdrop : (encodeOne a ++ (encodeAddrs t ++ rest)).drop (sockaddrSize a) =
        encodeAddrs t ++ rest := by
      rw [← encodeOne_length a ha, List.drop_left]
    simp only [List.length_cons, decode_list, hdec, hdrop, ih rest ht]

/-- Modelled from the spec: the association-change notification type code,
a fixed u16 constant of the kernel ABI.  The repository defines it in its
consts module, which is not under src/; the Linux value is used here (the
theorems below depend only on it being one fixed code). -/
def SCTP_ASSOC_CHANGE : Nat := 0x8001

/-- AssociationChange: the fixed-layout association-change notification
record with its trailing opaque info bytes. -/
structure AssociationChange where
  assoc_type : Nat
  flags : Nat
  length : Nat
  state : Nat
  error : Nat
  ob_streams : Nat
  ib_streams : Nat
  assoc_id : Int
  info : List Nat
deriving DecidableEq, Repr

/-- SctpNotification: a decoded notification, either a recognized
association-change record or the Unsupported variant. -/
inductive SctpNotification where
  | associationChange (c : AssociationChange)
  | unsupported
deriving DecidableEq, Repr

/-- notification_from_message: reads the 2-byte native-order type tag at
offset 0; on the association-change code it parses the fixed native-order
fields at their offsets and keeps the bytes from offset 20 onward as info;
any other tag yields Unsupported.  The slice indexing data[0..2] (and, in
the association-change arm, data[2..4] up to data[20..]) panics when the
buffer is shorter than the slice; a panic is modelled as none. -/
def notification_from_message (data : List Nat) : Option SctpNotification :=
  if 2 ≤ data.length then
    if u16ne data 0 = SCTP_ASSOC_CHANGE then
      if 20 ≤ data.length then
        some (.associationChange
          { assoc_type := u16ne data 0
            flags := u16ne data 2
            length := u32ne data 4
            state := u16ne data 8
            error := u16ne data 10
            ob_streams := u16ne data 12
            ib_streams := u16ne data 14
            assoc_id := i32ne data 16
            info := data.drop 20 })
      else none
    else some .unsupported
  else none

/-- SctpEvent: the 14 recognized symbolic event kinds. -/
inductive SctpEvent where
  | DataIo
  | Association
  | Address
  | SendFailure
  | PeerError
  | Shutdown
  | PartialDelivery
  | AdaptationLayer
  | Authentication
  | SenderDry
  | StreamReset
  | AssociationReset
  | StreamChange
  | SendFailureEvent
deriving DecidableEq, Repr

/-- Modelled from the spec: SctpEventSubscribe, the kernel's fixed
bit-field record with one flag byte per recognized event kind.  The
repository defines the struct in its types module, which is not under
src/; per the spec each kind controls exactly one field. -/
structure SctpEventSubscribe where
  data_io : Nat
  association : Nat
  address : Nat
  send_failure : Nat
  peer_error : Nat
  shutdown_ev : Nat
  partial_delivery : Nat
  adaptation_layer : Nat
  authentication : Nat
  sender_dry : Nat
  stream_reset : Nat
  association_reset : Nat
  stream_change : Nat
  send_failure_event : Nat
deriving DecidableEq, Repr

/-- Modelled from the spec: SctpEventSubscribe::default(), the all-disabled
record (Rust derive(Default) zero-initializes every flag byte). -/
def SctpEventSubscribe.default : SctpEventSubscribe :=
  ⟨0, 0, 0, 0, 0, 0, 0, 0, 0, 0, 0, 0, 0, 0⟩

/-- The body of the subscription loop of sctp_events_subscribe_internal:
one event kind enables its one field of the record. -/
def applyEvent (s : SctpEventSubscribe) : SctpEvent → SctpEventSubscribe
  | .DataIo => { s with data_io := 1 }
  | .Association => { s with association := 1 }
  | .Address => { s with address := 1 }
  | .SendFailure => { s with send_failure := 1 }
  | .PeerError => { s with peer_error := 1 }
  | .Shutdown => { s with shutdown_ev := 1 }
  | .PartialDelivery => { s with partial_delivery := 1 }
  | .AdaptationLayer => { s with adaptation_layer := 1 }
  | .Authentication => { s with authentication := 1 }
  | .SenderDry => { s with sender_dry := 1 }
  | .StreamReset => { s with stream_reset := 1 }
  | .AssociationReset => { s with association_reset := 1 }
  | .StreamChange => { s with stream_change := 1 }
  | .SendFailureEvent => { s with send_failure_event := 1 }

/-- The subscription loop of sctp_events_subscribe_internal: starting from
the default record, enable the field of every event in the input slice. -/
def buildSubscriber (events : List SctpEvent) : SctpEventSubscribe :=
  events.foldl applyEvent SctpEventSubscribe.default

/-- The field of the record that an event kind controls. -/
def getField (s : SctpEventSubscribe) : SctpEvent → Nat
  | .DataIo => s.data_io
  | .Association => s.association
  | .Address => s.address
  | .SendFailure => s.send_failure
  | .PeerError => s.peer_error
  | .Shutdown => s.shutdown_ev
  | .PartialDelivery => s.partial_delivery
  | .AdaptationLayer => s.adaptation_layer
  | .Authentication => s.authentication
  | .SenderDry => s.sender_dry
  | .StreamReset => s.stream_reset
  | .AssociationReset => s.association_reset
  | .StreamChange => s.stream_change
  | .SendFailureEvent => s.send_failure_event

lemma getField_applyEvent (s : SctpEventSubscribe) (e e' : SctpEvent) :
    getField (applyEvent s e') e = if e = e' then 1 else getField s e := by
  cases e' <;> cases e <;> simp [applyEvent, getField]

lemma getField_foldl (l : List SctpEvent) (s : SctpEventSubscribe)
    (e : SctpEvent) :
    getField (l.foldl applyEvent s) e = if e ∈ l then 1 else getField s e := by
  induction l generalizing s with
  | nil => simp
  | cons a t ih =>
    simp only [List.foldl_cons, ih, getField_applyEvent, List.mem_cons]
    by_cases hat : e ∈ t
    · simp [hat]
    · by_cases hea : e = a <;> simp [hat, hea]

lemma getField_buildSubscriber (l : List SctpEvent) (e : SctpEvent) :
    getField (buildSubscriber l) e = if e ∈ l then 1 else 0 := by
  rw [buildSubscriber, getField_foldl]
  by_cases h : e ∈ l
  · simp [h]
  · simp only [h, if_false]
    cases e <;> rfl

lemma subscriber_ext (s t : SctpEventSubscribe)
    (h : ∀ e, getField s e = getField t e) : s = t := by
  obtain ⟨s1, s2, s3, s4, s5, s6, s7, s8, s9, s10, s11, s12, s13, s14⟩ := s
  obtain ⟨t1, t2, t3, t4, t5, t6, t7, t8, t9, t10, t11, t12, t13, t14⟩ := t
  have h1 := h .DataIo
  have h2 := h .Association
  have h3 := h .Address
  have h4 := h .SendFailure
  have h5 := h .PeerError
  have h6 := h .Shutdown
  have h7 := h .PartialDelivery
  have h8 := h .AdaptationLayer
  have h9 := h .Authentication
  have h10 := h .SenderDry
  have h11 := h .StreamReset
  have h12 := h .AssociationReset
  have h13 := h .StreamChange
  have h14 := h .SendFailureEvent
  simp only [getField] at h1 h2 h3 h4 h5 h6 h7 h8 h9 h10 h11 h12 h13 h14
  simp_all

/-- SOL_SCTP, the SCTP protocol option level (static in internal.rs). -/
def SOL_SCTP : Int := 132

/-- Modelled from the spec: the bind-add socket-option code, a fixed
numeric constant of the kernel ABI defined in the repository's consts
module (not under src/); the Linux value is used. -/
def SCTP_SOCKOPT_BINDX_ADD : Int := 100

/-- Modelled from the spec: the bind-remove socket-option code (consts
module, not under src/; Linux value). -/
def SCTP_SOCKOPT_BINDX_REM : Int := 101

/-- Modelled from the spec: the peel-off socket-option code (consts
module, not under src/; Linux value). -/
def SCTP_SOCKOPT_PEELOFF : Int := 102

/-- Modelled from the spec: the connect-multi socket-option code (consts
module, not under src/; Linux value). -/
def SCTP_SOCKOPT_CONNECTX : Int := 110

/-- Modelled from the spec: the event-subscription socket-option code
(consts module, not under src/; Linux value). -/
def SCTP_EVENTS : Int := 11

/-- Modelled from the spec: the is-notification bit of the kernel-reported
receive flags (consts module, not under src/; Linux value). -/
def MSG_NOTIFICATION : Nat := 0x8000

/-- BindxFlags: whether bindx adds or removes the addresses. -/
inductive BindxFlags where
  | Add
  | Remove
deriving DecidableEq, Repr

/-- One setsockopt invocation as observed by the kernel: the descriptor,
the option level, the option name, the payload bytes and the declared
payload length. -/
structure SetSockOptCall where
  socket_fd : Int
  level : Int
  optname : Int
  optval : List Nat
  optlen : Nat
deriving DecidableEq, Repr

/-- The single setsockopt call sctp_bindx_internal issues: the SCTP level,
the add- or remove-specific option code, the concatenated encoded address
buffer and its exact byte length. -/
def bindxCall (fd : Int) (addrs : List SocketAddr) (flags : BindxFlags) :
    SetSockOptCall :=
  { socket_fd := fd
    level := SOL_SCTP
    optname := match flags with
      | .Add => SCTP_SOCKOPT_BINDX_ADD
      | .Remove => SCTP_SOCKOPT_BINDX_REM
    optval := encodeAddrs addrs
    optlen := (encodeAddrs addrs).length }

/-- sctp_bindx_internal: encode the address list into addrs_u8, issue one
setsockopt call with it, and surface a negative kernel result as the
current OS error.  The kernel is modelled as a function from the issued
call to its return value, errno as an explicit parameter; the second
component is the list of setsockopt calls issued, in order. -/
def sctp_bindx_internal (kernel : SetSockOptCall → Int) (errno : Int)
    (fd : Int) (addrs : List SocketAddr) (flags : BindxFlags) :
    Except SctpError Unit × List SetSockOptCall :=
  let call := bindxCall fd addrs flags
  let result := kernel call
  (if result < 0 then .error (.osError errno) else .ok (), [call])

/-- Modelled from the spec: SctpConnectedSocket, the connected-endpoint
wrapper produced by SctpConnectedSocket::from_rawfd, holding the raw
descriptor it was given (the type lives in the repository's lib module,
not under src/). -/
structure SctpConnectedSocket where
  fd : Int
deriving DecidableEq, Repr

/-- SctpConnectedSocket::from_rawfd: wrap an existing raw descriptor. -/
def SctpConnectedSocket.from_rawfd (fd : Int) : SctpConnectedSocket := ⟨fd⟩

/-- The single setsockopt call sctp_connectx_internal issues. -/
def connectxCall (fd : Int) (addrs : List SocketAddr) : SetSockOptCall :=
  { socket_fd := fd
    level := SOL_SCTP
    optname := SCTP_SOCKOPT_CONNECTX
    optval := encodeAddrs addrs
    optlen := (encodeAddrs addrs).length }

/-- sctp_connectx_internal: encode the address list, issue the
connect-multi setsockopt call; a negative result is surfaced as the OS
error, and a non-negative result is returned as the new association id
together with a connected socket wrapping the same descriptor. -/
def sctp_connectx_internal (kernel : SetSockOptCall → Int) (errno : Int)
    (fd : Int) (addrs : List SocketAddr) :
    Except SctpError (SctpConnectedSocket × Int) :=
  let result := kernel (connectxCall fd addrs)
  if result < 0 then .error (.osError errno)
  else .ok (SctpConnectedSocket.from_rawfd fd, result)

/-- SocketToAssociation: the requested socket model. -/
inductive SocketToAssociation where
  | OneToOne
  | OneToMany
deriving DecidableEq, Repr

/-- SOCK_STREAM (Linux ABI). -/
def SOCK_STREAM : Int := 1

/-- SOCK_SEQPACKET (Linux ABI). -/
def SOCK_SEQPACKET : Int := 5

/-- IPPROTO_SCTP (Linux ABI). -/
def IPPROTO_SCTP : Int := 132

/-- sctp_socket_internal: call libc socket with the type selected by the
requested association model, and return the raw result of that call
directly — there is no error check and no error channel in this function.
The kernel socket call is modelled as a function of (domain, type,
protocol). -/
def sctp_socket_internal (kernel : Int → Int → Int → Int) (domain : Int)
    (assoc : SocketToAssociation) : Int :=
  match assoc with
  | .OneToOne => kernel domain SOCK_STREAM IPPROTO_SCTP
  | .OneToMany => kernel domain SOCK_SEQPACKET IPPROTO_SCTP

/-- sctp_listen_internal: a negative libc listen result is surfaced as the
current OS error, otherwise Ok.  The kernel result and errno are explicit
parameters. -/
def sctp_listen_internal (result : Int) (errno : Int) :
    Except SctpError Unit :=
  if result < 0 then .error (.osError errno) else .ok ()

/-- shutdown_internal: a negative libc shutdown result is surfaced as the
current OS error, otherwise Ok. -/
def shutdown_internal (result : Int) (errno : Int) :
    Except SctpError Unit :=
  if result < 0 then .error (.osError errno) else .ok ()

/-- sctp_peeloff_internal: a negative getsockopt result is surfaced as the
current OS error; on success the descriptor the kernel wrote into the
peel-off record (sd_out) is returned as the new handle. -/
def sctp_peeloff_internal (result : Int) (errno : Int) (sd_out : Int) :
    Except SctpError Int :=
  if result < 0 then .error (.osError errno) else .ok sd_out

/-- accept_internal: a negative libc accept result is surfaced as the
current OS error; on success the new descriptor is returned together with
the peer-address bytes the kernel reported as written (their decoding via
OsSocketAddr is not needed by the claims and is left at the byte level). -/
def accept_internal (result : Int) (errno : Int) (addrs_buff : List Nat)
    (addrs_len : Nat) : Except SctpError (Int × List Nat) :=
  if result < 0 then .error (.osError errno)
  else .ok (result, addrs_buff.take addrs_len)

/-- Modelled from the spec: the header of the SctpGetAddrs record embedded
at the start of the address-enumeration buffer — the association id (4
bytes), then the address-count field the kernel fills in (u32), with the
concatenated address records following at offset 8.  The struct lives in
the repository's types module, not under src/. -/
def getaddrs_count (addrs_buff : List Nat) : Nat := u32ne addrs_buff 4

/-- The byte offset of the first address record in the
address-enumeration buffer (after the SctpGetAddrs header). -/
def getaddrs_records_off : Nat := 8

/-- sctp_getaddrs_internal: a negative getsockopt result is surfaced as
the current OS error; on success the address-count header field written by
the kernel bounds the decoding loop, which walks the records following the
header.  The kernel result, errno and the post-call buffer contents are
explicit parameters. -/
def sctp_getaddrs_internal (result : Int) (errno : Int)
    (addrs_buff : List Nat) : Except SctpError (List SocketAddr) :=
  if result < 0 then .error (.osError errno)
  else decode_list (addrs_buff.drop getaddrs_records_off)
    (getaddrs_count addrs_buff)

/-- SctpNotificationOrData: what one receive call yields — a decoded
notification or the raw data payload. -/
inductive SctpNotificationOrData where
  | notification (n : SctpNotification)
  | data (payload : List Nat)
deriving DecidableEq, Repr

/-- sctp_recvmsg_internal: a negative recvmsg result is surfaced as the
current OS error; otherwise the payload is truncated to the received byte
count and, when the kernel-reported flags carry the is-notification bit,
reinterpreted through notification_from_message (whose panic propagates,
modelled by the outer Option); otherwise it is returned as opaque data. -/
def sctp_recvmsg_internal (result : Int) (errno : Int) (msg_flags : Nat)
    (recv_buffer : List Nat) :
    Option (Except SctpError SctpNotificationOrData) :=
  if result < 0 then some (.error (.osError errno))
  else
    let truncated := recv_buffer.take result.toNat
    if msg_flags &&& MSG_NOTIFICATION ≠ 0 then
      (notification_from_message truncated).map
        fun n => .ok (.notification n)
    else some (.ok (.data truncated))

/-- sctp_events_subscribe_internal: build the subscription record by
enabling the field of every event in the input slice, issue one
setsockopt call with it, and surface a negative kernel result as the OS
error.  The second component is the record passed to the kernel. -/
def sctp_events_subscribe_internal (kernel : SctpEventSubscribe → Int)
    (errno : Int) (events : List SctpEvent) :
    Except SctpError Unit × SctpEventSubscribe :=
  let subscriber := buildSubscriber events
  let result := kernel subscriber
  (if result < 0 then .error (.osError errno) else .ok (), subscriber)

/-- close_internal: the libc close result is discarded; the function
returns nothing and cannot fail. -/
def close_internal (_result : Int) : Unit := ()

lemma decode_list_ok_length (n : Nat) :
    ∀ buf l, decode_list buf n = .ok l → l.length = n := by
  induction n with
  | zero =>
    intro buf l h
    simp only [decode_list, Except.ok.injEq] at h
    simp [← h]
  | succ n ih =>
    intro buf l h
    rw [decode_list] at h
    rcases hd : decode_one buf with ⟨r, c⟩
    rw [hd] at h
    cases r with
    | error e => dsimp only at h; simp at h
    | ok a =>
      dsimp only at h
      rcases hrest : decode_list (buf.drop c) n with e | rest
      · rw [hrest] at h; simp at h
      · rw [hrest] at h
        simp only [Except.ok.injEq] at h
        rw [← h]
        simp [ih _ _ hrest]

/-- C1: Round-trip — for every list of IPv4/IPv6 socket addresses (mixed
families allowed), decoding the encoded concatenation of their native
per-family records with the list's length as the declared count reproduces
the original list, element for element, in the original order. -/
theorem encode_decode_roundtrip (l : List SocketAddr)
    (h : ∀ a ∈ l, ValidAddr a) :
    decode_list (encodeAddrs l) l.length = .ok l := by
  have hres := decode_list_encodeAddrs l [] h
  simpa using hres

theorem encode_decode_roundtrip_witness :
    (∀ a ∈ [SocketAddr.v4 [10, 0, 0, 1] 8080,
        SocketAddr.v6 [0, 0, 0, 0, 0, 0, 0, 0, 0, 0, 0, 0, 0, 0, 0, 1] 443 5 7,
        SocketAddr.v4 [192, 168, 1, 2] 0], ValidAddr a)
    ∧ decode_list (encodeAddrs [SocketAddr.v4 [10, 0, 0, 1] 8080,
        SocketAddr.v6 [0, 0, 0, 0, 0, 0, 0, 0, 0, 0, 0, 0, 0, 0, 0, 1] 443 5 7,
        SocketAddr.v4 [192, 168, 1, 2] 0]) 3 =
      .ok [SocketAddr.v4 [10, 0, 0, 1] 8080,
        SocketAddr.v6 [0, 0, 0, 0, 0, 0, 0, 0, 0, 0, 0, 0, 0, 0, 0, 1] 443 5 7,
        SocketAddr.v4 [192, 168, 1, 2] 0] :=
  ⟨by decide,
    encode_decode_roundtrip
      [SocketAddr.v4 [10, 0, 0, 1] 8080,
        SocketAddr.v6 [0, 0, 0, 0, 0, 0, 0, 0, 0, 0, 0, 0, 0, 0, 0, 1] 443 5 7,
        SocketAddr.v4 [192, 168, 1, 2] 0] (by decide)⟩

/-- C2: For every buffer whose leading 2-byte family discriminator is
neither the IPv4 tag nor the IPv6 tag, decoding one address record fails
with the UnsupportedAddressFamily error (not some other error kind) and
consumes zero bytes. -/
theorem decode_one_unknown_family_fails (buf : List Nat)
    (hlen : 2 ≤ buf.length)
    (h4 : u16ne buf 0 ≠ AF_INET) (h6 : u16ne buf 0 ≠ AF_INET6) :
    decode_one buf = (.error unsupportedAddressFamily, 0) := by
  simp [decode_one, h4, h6]

theorem decode_one_unknown_family_fails_witness :
    2 ≤ ([5, 0, 1, 2] : List Nat).length
    ∧ decode_one [5, 0, 1, 2] = (.error unsupportedAddressFamily, 0) :=
  ⟨by decide,
    decode_one_unknown_family_fails [5, 0, 1, 2] (by decide) (by decide)
      (by decide)⟩

/-- C3: The decoder reads exactly the declared number of address records:
decoding with declared count 0 returns the empty list without a decode
step, a successful decode of declared count n returns exactly n
addresses, trailing bytes beyond the n encoded records are never read,
and sctp_getaddrs_internal with a kernel-reported count of 0 returns the
empty list. -/
theorem decode_list_bounded_by_declared_count :
    (∀ buf, decode_list buf 0 = .ok [])
    ∧ (∀ buf n l, decode_list buf n = .ok l → l.length = n)
    ∧ (∀ (l : List SocketAddr) (extra : List Nat), (∀ a ∈ l, ValidAddr a) →
        decode_list (encodeAddrs l ++ extra) l.length = .ok l)
    ∧ (∀ (result errno : Int) (buf : List Nat), 0 ≤ result →
        getaddrs_count buf = 0 →
        sctp_getaddrs_internal result errno buf = .ok []) := by
  refine ⟨fun buf => rfl, fun buf n l h => decode_list_ok_length n buf l h,
    fun l extra h => decode_list_encodeAddrs l extra h, ?_⟩
  intro result errno buf hres hcount
  rw [sctp_getaddrs_internal, if_neg (by omega), hcount]
  rfl

theorem decode_list_bounded_by_declared_count_witness :
    decode_list [7, 7, 7] 0 = .ok []
    ∧ ([SocketAddr.v4 [127, 0, 0, 1] 80] : List SocketAddr).length = 1
    ∧ decode_list (encodeAddrs [SocketAddr.v4 [127, 0, 0, 1] 80] ++ [9, 9]) 1 =
        .ok [SocketAddr.v4 [127, 0, 0, 1] 80]
    ∧ sctp_getaddrs_internal 0 7 [1, 0, 0, 0, 0, 0, 0, 0, 5, 5] = .ok [] :=
  ⟨decode_list_bounded_by_declared_count.1 [7, 7, 7],
    decode_list_bounded_by_declared_count.2.1
      (encodeAddrs [SocketAddr.v4 [127, 0, 0, 1] 80]) 1
      [SocketAddr.v4 [127, 0, 0, 1] 80] (by rfl),
    decode_list_bounded_by_declared_count.2.2.1
      [SocketAddr.v4 [127, 0, 0, 1] 80] [9, 9] (by decide),
    decode_list_bounded_by_declared_count.2.2.2 0 7
      [1, 0, 0, 0, 0, 0, 0, 0, 5, 5] (by decide) (by decide)⟩

/-- C4: For every byte buffer of length at least 20 whose leading 2-byte
native-order tag equals the association-change type code,
notification_from_message returns an AssociationChange record whose
fields equal the native-order integers at the documented offsets (flags
at 2, length at 4, state at 8, error at 10, outbound streams at 12,
inbound streams at 14, association id at 16) and whose info field equals
exactly the bytes from offset 20 to the end of the buffer. -/
theorem decode_notification_assoc_change (data : List Nat)
    (hlen : 20 ≤ data.length) (htag : u16ne data 0 = SCTP_ASSOC_CHANGE) :
    notification_from_message data = some (.associationChange
      { assoc_type := u16ne data 0
        flags := u16ne data 2
        length := u32ne data 4
        state := u16ne data 8
        error := u16ne data 10
        ob_streams := u16ne data 12
        ib_streams := u16ne data 14
        assoc_id := i32ne data 16
        info := data.drop 20 }) := by
  rw [notification_from_message, if_pos (by omega), if_pos htag, if_pos hlen]

theorem decode_notification_assoc_change_witness :
    notification_from_message
        [1, 128, 2, 0, 24, 0, 0, 0, 3, 0, 4, 0, 5, 0, 6, 0, 255, 255, 255, 255,
          170, 187] =
      some (.associationChange
        { assoc_type := 32769, flags := 2, length := 24, state := 3, error := 4,
          ob_streams := 5, ib_streams := 6, assoc_id := -1,
          info := [170, 187] }) :=
  decode_notification_assoc_change
    [1, 128, 2, 0, 24, 0, 0, 0, 3, 0, 4, 0, 5, 0, 6, 0, 255, 255, 255, 255,
      170, 187] (by decide) (by decide)

/-- C5 counterexample: on the empty buffer the claim fails — the slice
indexing data[0..2] in notification_from_message panics (modelled as
none), so the function does not return the Unsupported variant for
buffers shorter than 2 bytes. -/
theorem decode_notification_short_buffer_cx :
    notification_from_message [] = none ∧
    notification_from_message [] ≠ some SctpNotification.unsupported := by
  exact ⟨rfl, by decide⟩

/-- C5 (amended): for every buffer of length at least 2 whose leading
2-byte native-order tag is not the association-change type code,
notification_from_message returns the Unsupported variant, reading only
the leading tag; for buffers shorter than 2 bytes it panics on the slice
data[0..2] instead of failing gracefully. -/
theorem decode_notification_other_tag_unsupported (data : List Nat)
    (hlen : 2 ≤ data.length) (htag : u16ne data 0 ≠ SCTP_ASSOC_CHANGE) :
    notification_from_message data = some SctpNotification.unsupported := by
  rw [notification_from_message, if_pos hlen, if_neg htag]

theorem decode_notification_other_tag_unsupported_witness :
    2 ≤ ([0, 0] : List Nat).length
    ∧ notification_from_message [0, 0] = some SctpNotification.unsupported :=
  ⟨by decide,
    decode_notification_other_tag_unsupported [0, 0] (by decide) (by decide)⟩

/-- C6 counterexample: when the underlying socket call fails (returns -1),
sctp_socket_internal returns the invalid handle -1 to the caller — its
return type has no error channel and it performs no error check, so the
failure is not surfaced as an OS error. -/
theorem socket_failure_returns_invalid_handle :
    sctp_socket_internal (fun _ _ _ => -1) 2 SocketToAssociation.OneToOne
      = -1 := rfl

/-- C6 (amended): whenever a kernel call fails, the failure is surfaced
verbatim as an OS error for listen, shutdown, accept, receive, peel-off,
address enumeration, bindx, connectx and event subscription — but not for
socket creation: sctp_socket_internal passes the raw result of the socket
call through unchecked, whether or not it is a failure value. -/
theorem oserror_surfaced_except_socket_creation :
    (∀ r e : Int, r < 0 → sctp_listen_internal r e = .error (.osError e))
    ∧ (∀ r e : Int, r < 0 → shutdown_internal r e = .error (.osError e))
    ∧ (∀ (r e : Int) (buf : List Nat) (len : Nat), r < 0 →
        accept_internal r e buf len = .error (.osError e))
    ∧ (∀ (r e : Int) (flags : Nat) (buf : List Nat), r < 0 →
        sctp_recvmsg_internal r e flags buf = some (.error (.osError e)))
    ∧ (∀ r e sd : Int, r < 0 →
        sctp_peeloff_internal r e sd = .error (.osError e))
    ∧ (∀ (r e : Int) (buf : List Nat), r < 0 →
        sctp_getaddrs_internal r e buf = .error (.osError e))
    ∧ (∀ (kernel : SetSockOptCall → Int) (e fd : Int)
        (addrs : List SocketAddr) (flags : BindxFlags),
        kernel (bindxCall fd addrs flags) < 0 →
        (sctp_bindx_internal kernel e fd addrs flags).1 = .error (.osError e))
    ∧ (∀ (kernel : SetSockOptCall → Int) (e fd : Int)
        (addrs : List SocketAddr),
        kernel (connectxCall fd addrs) < 0 →
        sctp_connectx_internal kernel e fd addrs = .error (.osError e))
    ∧ (∀ (kernel : SctpEventSubscribe → Int) (e : Int)
        (events : List SctpEvent),
        kernel (buildSubscriber events) < 0 →
        (sctp_events_subscribe_internal kernel e events).1 =
          .error (.osError e))
    ∧ (∀ (r domain : Int) (assoc : SocketToAssociation),
        sctp_socket_internal (fun _ _ _ => r) domain assoc = r) := by
  refine ⟨?_, ?_, ?_, ?_, ?_, ?_, ?_, ?_, ?_, ?_⟩
  · intro r e h; simp [sctp_listen_internal, h]
  · intro r e h; simp [shutdown_internal, h]
  · intro r e buf len h; simp [accept_internal, h]
  · intro r e flags buf h; simp [sctp_recvmsg_internal, h]
  · intro r e sd h; simp [sctp_peeloff_internal, h]
  · intro r e buf h; simp [sctp_getaddrs_internal, h]
  · intro kernel e fd addrs flags h; simp [sctp_bindx_internal, h]
  · intro kernel e fd addrs h; simp [sctp_connectx_internal, h]
  · intro kernel e events h
    simp only [sctp_events_subscribe_internal]
    rw [if_pos h]
  · intro r domain assoc; cases assoc <;> rfl

theorem oserror_surfaced_except_socket_creation_witness :
    sctp_listen_internal (-1) 13 = .error (.osError 13)
    ∧ shutdown_internal (-1) 13 = .error (.osError 13)
    ∧ accept_internal (-1) 13 [0, 0] 2 = .error (.osError 13)
    ∧ sctp_recvmsg_internal (-1) 13 0 [] = some (.error (.osError 13))
    ∧ sctp_peeloff_internal (-1) 13 5 = .error (.osError 13)
    ∧ sctp_getaddrs_internal (-1) 13 [] = .error (.osError 13)
    ∧ (sctp_bindx_internal (fun _ => -1) 13 3 [] .Add).1 =
        .error (.osError 13)
    ∧ sctp_connectx_internal (fun _ => -1) 13 3 [] = .error (.osError 13)
    ∧ (sctp_events_subscribe_internal (fun _ => -1) 13 []).1 =
        .error (.osError 13)
    ∧ sctp_socket_internal (fun _ _ _ => -1) 10 .OneToMany = -1 := by
  obtain ⟨h1, h2, h3, h4, h5, h6, h7, h8, h9, h10⟩ :=
    oserror_surfaced_except_socket_creation
  exact ⟨h1 (-1) 13 (by norm_num), h2 (-1) 13 (by norm_num),
    h3 (-1) 13 [0, 0] 2 (by norm_num), h4 (-1) 13 0 [] (by norm_num),
    h5 (-1) 13 5 (by norm_num), h6 (-1) 13 [] (by norm_num),
    h7 (fun _ => -1) 13 3 [] .Add (by norm_num),
    h8 (fun _ => -1) 13 3 [] (by norm_num),
    h9 (fun _ => -1) 13 [] (by norm_num), h10 (-1) 10 .OneToMany⟩

/-- C7: bindx encodes the given address list into one concatenated buffer
of per-family records and issues exactly one kernel set-option call with
that buffer and its exact byte length, and — given that the kernel
setsockopt contract returns 0 on success and a negative value on failure
— it returns Ok exactly when the result is zero and a surfaced OS error
exactly when the result is non-zero. -/
theorem bindx_one_call_errors_iff_nonzero (kernel : SetSockOptCall → Int)
    (errno fd : Int) (addrs : List SocketAddr) (flags : BindxFlags)
    (hk : kernel (bindxCall fd addrs flags) ≤ 0) :
    (sctp_bindx_internal kernel errno fd addrs flags).2 =
        [bindxCall fd addrs flags]
    ∧ (bindxCall fd addrs flags).optval = encodeAddrs addrs
    ∧ (bindxCall fd addrs flags).optlen = (encodeAddrs addrs).length
    ∧ (kernel (bindxCall fd addrs flags) = 0 →
        (sctp_bindx_internal kernel errno fd addrs flags).1 = .ok ())
    ∧ (kernel (bindxCall fd addrs flags) ≠ 0 →
        (sctp_bindx_internal kernel errno fd addrs flags).1 =
          .error (.osError errno)) := by
  refine ⟨rfl, rfl, rfl, ?_, ?_⟩
  · intro h0
    simp [sctp_bindx_internal, h0]
  · intro hne
    have hneg : kernel (bindxCall fd addrs flags) < 0 := by omega
    simp [sctp_bindx_internal, hneg]

theorem bindx_one_call_errors_iff_nonzero_witness :
    (sctp_bindx_internal (fun _ => 0) 13 3
          [SocketAddr.v4 [10, 0, 0, 1] 0, SocketAddr.v4 [10, 0, 0, 2] 0]
          .Add).2 =
        [bindxCall 3 [SocketAddr.v4 [10, 0, 0, 1] 0,
          SocketAddr.v4 [10, 0, 0, 2] 0] .Add]
    ∧ (bindxCall 3 [SocketAddr.v4 [10, 0, 0, 1] 0,
        SocketAddr.v4 [10, 0, 0, 2] 0] .Add).optlen = 32
    ∧ (sctp_bindx_internal (fun _ => 0) 13 3
        [SocketAddr.v4 [10, 0, 0, 1] 0, SocketAddr.v4 [10, 0, 0, 2] 0]
        .Add).1 = .ok () := by
  have h := bindx_one_call_errors_iff_nonzero (fun _ => 0) 13 3
    [SocketAddr.v4 [10, 0, 0, 1] 0, SocketAddr.v4 [10, 0, 0, 2] 0] .Add
    (by norm_num)
  exact ⟨h.1, by rw [h.2.2.1]; rfl, h.2.2.2.1 rfl⟩

/-- C8: on success, connectx returns as the new association id the kernel
call's return value itself, and the connected socket it returns wraps the
same descriptor that was passed in. -/
theorem connectx_returns_kernel_result_and_same_fd
    (kernel : SetSockOptCall → Int) (errno fd : Int)
    (addrs : List SocketAddr) (hk : 0 ≤ kernel (connectxCall fd addrs)) :
    sctp_connectx_internal kernel errno fd addrs =
      .ok (SctpConnectedSocket.from_rawfd fd,
        kernel (connectxCall fd addrs)) := by
  simp only [sctp_connectx_internal]
  rw [if_neg (by omega)]

theorem connectx_returns_kernel_result_and_same_fd_witness :
    sctp_connectx_internal (fun _ => 42) 13 7 [] =
      .ok (SctpConnectedSocket.from_rawfd 7, 42) :=
  connectx_returns_kernel_result_and_same_fd (fun _ => 42) 13 7 []
    (by norm_num)

/-- C9: the event-set-to-bit-field mapping is injective over the 14
recognized event kinds — input slices that build equal records contain
the same set of kinds, each kind reads back from exactly the one field it
controls, and the empty event set builds the default record with every
field disabled. -/
theorem events_bitfield_injective :
    (∀ l1 l2 : List SctpEvent, buildSubscriber l1 = buildSubscriber l2 →
        ∀ e, e ∈ l1 ↔ e ∈ l2)
    ∧ (∀ (l : List SctpEvent) (e : SctpEvent),
        getField (buildSubscriber l) e = if e ∈ l then 1 else 0)
    ∧ buildSubscriber [] = SctpEventSubscribe.default
    ∧ (∀ e, getField SctpEventSubscribe.default e = 0) := by
  refine ⟨?_, getField_buildSubscriber, rfl, ?_⟩
  · intro l1 l2 h e
    have h1 := getField_buildSubscriber l1 e
    have h2 := getField_buildSubscriber l2 e
    rw [h] at h1
    rw [h2] at h1
    by_cases e1 : e ∈ l1 <;> by_cases e2 : e ∈ l2 <;>
      simp [e1, e2] at h1 ⊢
  · intro e; cases e <;> rfl

theorem events_bitfield_injective_witness :
    SctpEvent.DataIo ∈ [SctpEvent.DataIo] ↔
      SctpEvent.DataIo ∈ [SctpEvent.DataIo, SctpEvent.DataIo] :=
  events_bitfield_injective.1 [SctpEvent.DataIo]
    [SctpEvent.DataIo, SctpEvent.DataIo] rfl SctpEvent.DataIo

/-- C10: the bit-field record built by sctp_events_subscribe_internal
depends only on which event kinds occur in the input slice, not on their
order or multiplicity. -/
theorem subscribe_events_record_set_determined
    (kernel : SctpEventSubscribe → Int) (errno : Int)
    (l1 l2 : List SctpEvent) (h : ∀ e, e ∈ l1 ↔ e ∈ l2) :
    (sctp_events_subscribe_internal kernel errno l1).2 =
      (sctp_events_subscribe_internal kernel errno l2).2 := by
  show buildSubscriber l1 = buildSubscriber l2
  apply subscriber_ext
  intro e
  rw [getField_buildSubscriber, getField_buildSubscriber]
  simp [h e]

theorem subscribe_events_record_set_determined_witness :
    (sctp_events_subscribe_internal (fun _ => 0) 13
        [SctpEvent.Address, SctpEvent.DataIo]).2 =
      (sctp_events_subscribe_internal (fun _ => 0) 13
        [SctpEvent.DataIo, SctpEvent.Address, SctpEvent.DataIo]).2 :=
  subscribe_events_record_set_determined (fun _ => 0) 13
    [SctpEvent.Address, SctpEvent.DataIo]
    [SctpEvent.DataIo, SctpEvent.Address, SctpEvent.DataIo]
    (by intro e; cases e <;> simp)
